import Mathlib

/-!
Shallow embedding of `src/grill_proxy/src/peripheral.rs`.

The single exported operation, `advertise_and_find_proxy_device_name`, builds
an LE advertisement, registers a GATT application with one write-only
characteristic, then loops over a `tokio::select!` racing a stdin line
(operator cancellation) against the next characteristic control event, until
it either returns a decoded proxy device name, returns an error, or breaks
out of the loop and returns a generic failure.

Modelling choices:
- A Rust `&[u8]` / `Vec<u8>` is `List Nat` with byte values below 256; the
  UTF-8 validator rejects any value of 0xF5 or above, so out-of-range values
  are handled uniformly.
- A Rust `String` produced from `from_utf8(..).to_string()` is represented by
  its byte content (`RStr := List Nat`): Rust's `str::from_utf8` is a
  validating cast and does not transform bytes.
- The asynchronous environment (which `select!` branch wins each iteration,
  what the control stream yields, whether accept/read succeed and which bytes
  the read delivers) is a script: a `List SelectBranch` consumed one entry
  per loop iteration. An exhausted script means the program is still blocked
  awaiting its sources (`RunResult.pending`).
- Rust drop semantics are explicit: the run records a trace of resource
  acquisitions and releases. `_adv_handle` and `_app_handle` are dropped, in
  reverse declaration order, on every path that leaves their scope; a failing
  `?` before a handle is created acquires nothing.
-/

namespace GrillProxy

/-- A 128-bit UUID, modelled as a natural number. -/
abbrev Uuid := Nat

/-- Byte content of a Rust `String` / `&str`. -/
abbrev RStr := List Nat

/-- `const TESTING_MANUFACTURER_ID: u16 = 0xffff;` -/
def TESTING_MANUFACTURER_ID : Nat := 0xffff

/-- The subset of `bluer::ErrorKind` variants relevant here; the source only
constructs `Failed`, the adapter may report others. -/
inductive ErrorKind where
  | Failed
  | AlreadyExists
  | DoesNotExist
  | InProgress
  | InvalidArguments
  | NotAuthorized
  | NotReady
  | NotSupported
  | NotPermitted
  | Internal
deriving DecidableEq, Repr

/-- `bluer::Error { kind, message }`. -/
structure BluerError where
  kind : ErrorKind
  message : String
deriving DecidableEq, Repr

/-- The fields of `bluer::adv::Advertisement` set by the source (all others
are defaulted and never read by this program). -/
structure Advertisement where
  service_uuids : List Uuid
  manufacturer_data : List (Nat × List Nat)
  discoverable : Option Bool
  local_name : Option String
deriving DecidableEq, Repr

/-- `bluer::gatt::local::CharacteristicWriteMethod`; the source uses `Io`. -/
inductive CharacteristicWriteMethod where
  | Io
deriving DecidableEq, Repr

/-- The fields of `CharacteristicWrite` set by the source. -/
structure CharacteristicWrite where
  write : Bool
  method : CharacteristicWriteMethod
deriving DecidableEq, Repr

/-- The fields of `Characteristic` set by the source (the control handle is
modelled by the event script instead of a channel). -/
structure Characteristic where
  uuid : Uuid
  write : Option CharacteristicWrite
deriving DecidableEq, Repr

/-- The fields of `Service` set by the source. -/
structure Service where
  uuid : Uuid
  primary : Bool
  characteristics : List Characteristic
deriving DecidableEq, Repr

/-- The fields of `Application` set by the source. -/
structure Application where
  services : List Service
deriving DecidableEq, Repr

/-- The behavior of the reader obtained from `req.accept()`: one `read` call
either fails or delivers a sequence of available bytes (of which at most the
buffer's length are copied into the buffer). -/
structure Reader where
  readResult : Except BluerError (List Nat)
deriving Repr

/-- A `CharacteristicControlEvent::Write` request: its negotiated MTU and the
outcome of exercising `accept()` on it. -/
structure WriteRequest where
  mtu : Nat
  acceptResult : Except BluerError Reader
deriving Repr

/-- `bluer::gatt::local::CharacteristicControlEvent`. -/
inductive CharacteristicControlEvent where
  | write (req : WriteRequest)
  | notify (mtu : Nat)
deriving Repr

/-- One iteration of the `tokio::select!`: which of the two raced sources
completes. `stdinLine` is `lines.next_line()` finishing (operator
cancellation); `charEvent e` is `char_control.next()` yielding `e`
(`none` = the control stream ended). -/
inductive SelectBranch where
  | stdinLine
  | charEvent (evt : Option CharacteristicControlEvent)
deriving Repr

/-- The BLE adapter capability: the two operations the source invokes, each
returning a handle (modelled as `Unit`, lifecycle tracked by the run trace)
or a `bluer::Error`. -/
structure Adapter where
  advertise : Advertisement → Except BluerError Unit
  serve_gatt_application : Application → Except BluerError Unit

/-! ### UTF-8 validation, faithful to Rust `core::str::run_utf8_validation` -/

/-- `std::str::Utf8Error { valid_up_to, error_len }`. -/
structure Utf8Error where
  valid_up_to : Nat
  error_len : Option Nat
deriving DecidableEq, Repr

/-- Rust's `UTF8_CHAR_WIDTH` table. -/
def utf8CharWidth (b : Nat) : Nat :=
  if b ≤ 0x7F then 1
  else if 0xC2 ≤ b ∧ b ≤ 0xDF then 2
  else if 0xE0 ≤ b ∧ b ≤ 0xEF then 3
  else if 0xF0 ≤ b ∧ b ≤ 0xF4 then 4
  else 0

/-- Rust's `utf8_is_cont_byte`. -/
def isContByte (b : Nat) : Bool := 0x80 ≤ b ∧ b ≤ 0xBF

/-- The second-byte constraint for a three-byte sequence headed by `b`
(excludes overlong encodings and surrogates), as matched in
`run_utf8_validation`. -/
def validSecondOf3 (b c : Nat) : Bool :=
  (b = 0xE0 ∧ 0xA0 ≤ c ∧ c ≤ 0xBF) ∨
  (0xE1 ≤ b ∧ b ≤ 0xEC ∧ 0x80 ≤ c ∧ c ≤ 0xBF) ∨
  (b = 0xED ∧ 0x80 ≤ c ∧ c ≤ 0x9F) ∨
  (0xEE ≤ b ∧ b ≤ 0xEF ∧ 0x80 ≤ c ∧ c ≤ 0xBF)

/-- The second-byte constraint for a four-byte sequence headed by `b`
(excludes overlong encodings and values above U+10FFFF). -/
def validSecondOf4 (b c : Nat) : Bool :=
  (b = 0xF0 ∧ 0x90 ≤ c ∧ c ≤ 0xBF) ∨
  (0xF1 ≤ b ∧ b ≤ 0xF3 ∧ 0x80 ≤ c ∧ c ≤ 0xBF) ∨
  (b = 0xF4 ∧ 0x80 ≤ c ∧ c ≤ 0x8F)

/-- Rust's `run_utf8_validation` over the remaining bytes, with `i` the index
of the head of the remaining input in the original slice. Returns `none` when
the input is valid UTF-8, otherwise the `Utf8Error`: `valid_up_to` is the
index at which the failing sequence starts, `error_len` is `none` when the
input ended mid-sequence and `some k` when `k` bytes form an invalid
sequence. -/
def utf8Validate : List Nat → Nat → Option Utf8Error
  | [], _ => none
  | b :: rest, i =>
    if b < 0x80 then utf8Validate rest (i + 1)
    else if utf8CharWidth b = 2 then
      match rest with
      | [] => some ⟨i, none⟩
      | c1 :: r1 =>
        if isContByte c1 then utf8Validate r1 (i + 2) else some ⟨i, some 1⟩
    else if utf8CharWidth b = 3 then
      match rest with
      | [] => some ⟨i, none⟩
      | c1 :: r1 =>
        if validSecondOf3 b c1 then
          match r1 with
          | [] => some ⟨i, none⟩
          | c2 :: r2 =>
            if isContByte c2 then utf8Validate r2 (i + 3) else some ⟨i, some 2⟩
        else some ⟨i, some 1⟩
    else if utf8CharWidth b = 4 then
      match rest with
      | [] => some ⟨i, none⟩
      | c1 :: r1 =>
        if validSecondOf4 b c1 then
          match r1 with
          | [] => some ⟨i, none⟩
          | c2 :: r2 =>
            if isContByte c2 then
              match r2 with
              | [] => some ⟨i, none⟩
              | c3 :: r3 =>
                if isContByte c3 then utf8Validate r3 (i + 4)
                else some ⟨i, some 3⟩
            else some ⟨i, some 2⟩
        else some ⟨i, some 1⟩
    else some ⟨i, some 1⟩

/-- `std::str::from_utf8`: a validating cast. On success the `&str` views the
same bytes; on failure it reports the `Utf8Error`. -/
def from_utf8 (v : List Nat) : Except Utf8Error RStr :=
  match utf8Validate v 0 with
  | none => Except.ok v
  | some e => Except.error e

/-- The `Display` text of `std::str::Utf8Error`, as interpolated by the
source into its error message. -/
def Utf8Error.display (e : Utf8Error) : String :=
  match e.error_len with
  | some n =>
      "invalid utf-8 sequence of " ++ toString n ++ " bytes from index " ++
        toString e.valid_up_to
  | none =>
      "incomplete utf-8 byte sequence from index " ++ toString e.valid_up_to

/-! ### The operation -/

/-- The error built in the `Err(e)` arm of the `from_utf8` match
(`peripheral.rs` lines 108-113). -/
def decodeErrorOf (e : Utf8Error) : BluerError :=
  { kind := ErrorKind.Failed
    message := "Written proxy device name is not a UTF8-encoded string: " ++
      e.display }

/-- The error returned after the loop breaks (`peripheral.rs` lines
124-127), reached on a stdin line and on control-stream end alike. -/
def failedToCollectError : BluerError :=
  { kind := ErrorKind.Failed
    message := "Failed to collect a proxy device name" }

/-- The `Advertisement` literal built at the top of
`advertise_and_find_proxy_device_name` (lines 35-47): the service UUID in the
identifier set, the testing manufacturer ID mapped to four arbitrary bytes,
discoverable, local name = `device_name`. -/
def buildAdvertisement (device_name : String) (svc_uuid : Uuid) :
    Advertisement :=
  { service_uuids := [svc_uuid]
    manufacturer_data := [(TESTING_MANUFACTURER_ID, [0x21, 0x22, 0x23, 0x24])]
    discoverable := some true
    local_name := some device_name }

/-- The `Application` literal (lines 51-78): one primary service with one
characteristic enabled for plain write via the `Io` method. -/
def buildApplication (svc_uuid proxy_device_name_char_uuid : Uuid) :
    Application :=
  { services := [{ uuid := svc_uuid
                   primary := true
                   characteristics := [{ uuid := proxy_device_name_char_uuid
                                         write := some { write := true
                                                         method := .Io } }] }] }

/-- One `read` into a fresh buffer: up to `buf.length` bytes are copied from
the available bytes; the remainder of the buffer is left untouched. Returns
`num_bytes` and the buffer after the read. -/
def readInto (available buf : List Nat) : Nat × List Nat :=
  let num_bytes := min available.length buf.length
  (num_bytes, available.take num_bytes ++ buf.drop num_bytes)

/-- The body of the `Write(req)` arm (lines 97-114): size a zeroed buffer by
the request's MTU, `accept()?`, `read(&mut read_buf).await?`, trim the buffer
to the bytes actually read, decode as UTF-8; return the string on success or
the decode error otherwise. -/
def handleWrite (req : WriteRequest) : Except BluerError RStr :=
  let read_buf := List.replicate req.mtu 0
  match req.acceptResult with
  | Except.error e => Except.error e
  | Except.ok reader =>
    match reader.readResult with
    | Except.error e => Except.error e
    | Except.ok available =>
      let r := readInto available read_buf
      let trimmed_read_buf := r.2.take r.1
      match from_utf8 trimmed_read_buf with
      | Except.ok proxy_device_name_str => Except.ok proxy_device_name_str
      | Except.error e => Except.error (decodeErrorOf e)

/-- Resource lifecycle actions recorded by a run. -/
inductive ResAction where
  | registerAdv
  | releaseAdv
  | registerApp
  | releaseApp
deriving DecidableEq, Repr

/-- Whether `advertise_and_find_proxy_device_name` returned, and with what;
`pending` means the script ended while the program was still awaiting its
sources. -/
inductive RunResult where
  | returned (r : Except BluerError RStr)
  | pending
deriving Repr

/-- What one run of the wait loop produced: its result, how many control
events it dispatched (the `Some` arms of the match), and how many write
requests it handled. -/
structure LoopOutput where
  result : RunResult
  eventsProcessed : Nat
  writesHandled : Nat
deriving Repr

/-- The `loop { tokio::select! { ... } }` (lines 89-121) followed by the
fall-through error (lines 124-127): a stdin line breaks; a `Write` event runs
`handleWrite` and returns its outcome; a `Notify` event only logs and loops;
stream end (`None`) breaks. Breaking converges on `failedToCollectError`. -/
def runLoop : List SelectBranch → LoopOutput
  | [] => ⟨RunResult.pending, 0, 0⟩
  | SelectBranch.stdinLine :: _ =>
    ⟨RunResult.returned (Except.error failedToCollectError), 0, 0⟩
  | SelectBranch.charEvent none :: _ =>
    ⟨RunResult.returned (Except.error failedToCollectError), 0, 0⟩
  | SelectBranch.charEvent (some (CharacteristicControlEvent.notify _)) :: rest =>
    let o := runLoop rest
    ⟨o.result, o.eventsProcessed + 1, o.writesHandled⟩
  | SelectBranch.charEvent (some (CharacteristicControlEvent.write req)) :: _ =>
    ⟨RunResult.returned (handleWrite req), 1, 1⟩

/-- Everything observable about one run: its result, the resource lifecycle
trace in order, and the loop's event counters. -/
structure RunOutput where
  result : RunResult
  trace : List ResAction
  eventsProcessed : Nat
  writesHandled : Nat
deriving Repr

/-- `advertise_and_find_proxy_device_name` (lines 30-128). Registers the
advertisement (a failing `?` here acquires nothing), registers the GATT
application (a failing `?` here drops the advertisement handle on the way
out), then runs the wait loop; whenever the function returns, `_app_handle`
and `_adv_handle` are dropped in reverse declaration order. -/
def advertise_and_find_proxy_device_name (adapter : Adapter)
    (device_name : String) (svc_uuid proxy_device_name_char_uuid : Uuid)
    (branches : List SelectBranch) : RunOutput :=
  let le_advertisement := buildAdvertisement device_name svc_uuid
  match adapter.advertise le_advertisement with
  | Except.error e => ⟨RunResult.returned (Except.error e), [], 0, 0⟩
  | Except.ok _ =>
    let app := buildApplication svc_uuid proxy_device_name_char_uuid
    match adapter.serve_gatt_application app with
    | Except.error e =>
      ⟨RunResult.returned (Except.error e),
        [ResAction.registerAdv, ResAction.releaseAdv], 0, 0⟩
    | Except.ok _ =>
      let o := runLoop branches
      match o.result with
      | RunResult.pending =>
        ⟨RunResult.pending, [ResAction.registerAdv, ResAction.registerApp],
          o.eventsProcessed, o.writesHandled⟩
      | RunResult.returned r =>
        ⟨RunResult.returned r,
          [ResAction.registerAdv, ResAction.registerApp,
            ResAction.releaseApp, ResAction.releaseAdv],
          o.eventsProcessed, o.writesHandled⟩

/-- An adapter on which both registrations succeed; used to instantiate
universally quantified statements at a concrete input. -/
def okAdapter : Adapter :=
  { advertise := fun _ => Except.ok ()
    serve_gatt_application := fun _ => Except.ok () }

end GrillProxy

namespace GrillProxy

/-- On a successful accept and a read that delivers `S` with `S.length ≤ mtu`,
the write handler decodes exactly the delivered bytes: the untouched zero
remainder of the MTU-sized buffer never reaches the decoder. -/
lemma handleWrite_delivers (mtu : Nat) (S : List Nat) (h : S.length ≤ mtu) :
    handleWrite ⟨mtu, Except.ok ⟨Except.ok S⟩⟩ =
      match from_utf8 S with
      | Except.ok s => Except.ok s
      | Except.error e => Except.error (decodeErrorOf e) := by
  simp only [handleWrite, readInto]
  rw [List.length_replicate, Nat.min_eq_left h, List.take_length, List.take_left]

/-- A maximal prefix of notify events leaves the loop's result and write
count those of the remaining script. -/
lemma runLoop_notify_transparent (mtus : List Nat) (rest : List SelectBranch) :
    (runLoop ((mtus.map fun m => SelectBranch.charEvent
        (some (CharacteristicControlEvent.notify m))) ++ rest)).result
      = (runLoop rest).result ∧
    (runLoop ((mtus.map fun m => SelectBranch.charEvent
        (some (CharacteristicControlEvent.notify m))) ++ rest)).writesHandled
      = (runLoop rest).writesHandled := by
  induction mtus with
  | nil => exact ⟨rfl, rfl⟩
  | cons m ms ih =>
    simp only [List.map_cons, List.cons_append, runLoop]
    exact ih

end GrillProxy

namespace GrillProxy

/-- A run whose single select outcome is a write delivering the valid UTF-8
bytes `S` (with `S.length ≤ mtu`) returns `Ok` with exactly those bytes. -/
lemma run_single_valid_write (adapter : Adapter)
    (device_name : String) (svc_uuid char_uuid : Uuid) (S : List Nat)
    (mtu : Nat)
    (hadv : adapter.advertise (buildAdvertisement device_name svc_uuid)
      = Except.ok ())
    (happ : adapter.serve_gatt_application
      (buildApplication svc_uuid char_uuid) = Except.ok ())
    (hvalid : utf8Validate S 0 = none) (hlen : S.length ≤ mtu) :
    (advertise_and_find_proxy_device_name adapter device_name svc_uuid
        char_uuid
        [SelectBranch.charEvent (some (CharacteristicControlEvent.write
          ⟨mtu, Except.ok ⟨Except.ok S⟩⟩))]).result
      = RunResult.returned (Except.ok S) := by
  simp only [advertise_and_find_proxy_device_name, hadv, happ, runLoop]
  rw [handleWrite_delivers mtu S hlen]
  simp only [from_utf8, hvalid]

/-- Claim C1: a single write of a valid UTF-8 byte sequence `S` of length at
most the negotiated MTU makes the operation return `Ok` with a string whose
bytes equal `S` exactly, decoded from only the bytes actually read. -/
theorem C1_valid_write_returns_exact_bytes (adapter : Adapter)
    (device_name : String) (svc_uuid char_uuid : Uuid) (S : List Nat)
    (mtu : Nat)
    (hadv : adapter.advertise (buildAdvertisement device_name svc_uuid)
      = Except.ok ())
    (happ : adapter.serve_gatt_application
      (buildApplication svc_uuid char_uuid) = Except.ok ())
    (hvalid : utf8Validate S 0 = none) (hlen : S.length ≤ mtu) :
    (advertise_and_find_proxy_device_name adapter device_name svc_uuid
        char_uuid
        [SelectBranch.charEvent (some (CharacteristicControlEvent.write
          ⟨mtu, Except.ok ⟨Except.ok S⟩⟩))]).result
      = RunResult.returned (Except.ok S) :=
  run_single_valid_write adapter device_name svc_uuid char_uuid S mtu hadv
    happ hvalid hlen

theorem C1_witness :
    (advertise_and_find_proxy_device_name okAdapter "rock4" 1 2
        [SelectBranch.charEvent (some (CharacteristicControlEvent.write
          ⟨23, Except.ok ⟨Except.ok
            [0x70, 0x69, 0x78, 0x65, 0x6c, 0x2d, 0x37]⟩⟩))]).result
      = RunResult.returned
          (Except.ok [0x70, 0x69, 0x78, 0x65, 0x6c, 0x2d, 0x37]) :=
  C1_valid_write_returns_exact_bytes okAdapter "rock4" 1 2
    [0x70, 0x69, 0x78, 0x65, 0x6c, 0x2d, 0x37] 23 rfl rfl (by decide)
    (by decide)

end GrillProxy

namespace GrillProxy

/-- Claim C2: a write whose bytes are not valid UTF-8 ends the whole run with
the decode error (carrying the `Utf8Error` detail in its message); exactly
one control event is dispatched and one write handled, whatever events would
have followed — no retry. -/
theorem C2_invalid_write_ends_run (adapter : Adapter) (device_name : String)
    (svc_uuid char_uuid : Uuid) (S : List Nat) (mtu : Nat) (err : Utf8Error)
    (rest : List SelectBranch)
    (hadv : adapter.advertise (buildAdvertisement device_name svc_uuid)
      = Except.ok ())
    (happ : adapter.serve_gatt_application
      (buildApplication svc_uuid char_uuid) = Except.ok ())
    (hinvalid : utf8Validate S 0 = some err) (hlen : S.length ≤ mtu) :
    (advertise_and_find_proxy_device_name adapter device_name svc_uuid
        char_uuid
        (SelectBranch.charEvent (some (CharacteristicControlEvent.write
          ⟨mtu, Except.ok ⟨Except.ok S⟩⟩)) :: rest)).result
      = RunResult.returned (Except.error (decodeErrorOf err)) ∧
    (advertise_and_find_proxy_device_name adapter device_name svc_uuid
        char_uuid
        (SelectBranch.charEvent (some (CharacteristicControlEvent.write
          ⟨mtu, Except.ok ⟨Except.ok S⟩⟩)) :: rest)).eventsProcessed = 1 ∧
    (advertise_and_find_proxy_device_name adapter device_name svc_uuid
        char_uuid
        (SelectBranch.charEvent (some (CharacteristicControlEvent.write
          ⟨mtu, Except.ok ⟨Except.ok S⟩⟩)) :: rest)).writesHandled = 1 := by
  simp only [advertise_and_find_proxy_device_name, hadv, happ, runLoop]
  rw [handleWrite_delivers mtu S hlen]
  simp [from_utf8, hinvalid]

theorem C2_witness :
    (advertise_and_find_proxy_device_name okAdapter "rock4" 1 2
        (SelectBranch.charEvent (some (CharacteristicControlEvent.write
          ⟨23, Except.ok ⟨Except.ok [0xff, 0xfe]⟩⟩))
          :: [SelectBranch.charEvent (some (CharacteristicControlEvent.write
            ⟨23, Except.ok ⟨Except.ok [0x61]⟩⟩))])).result
      = RunResult.returned (Except.error (decodeErrorOf ⟨0, some 1⟩)) ∧
    (advertise_and_find_proxy_device_name okAdapter "rock4" 1 2
        (SelectBranch.charEvent (some (CharacteristicControlEvent.write
          ⟨23, Except.ok ⟨Except.ok [0xff, 0xfe]⟩⟩))
          :: [SelectBranch.charEvent (some (CharacteristicControlEvent.write
            ⟨23, Except.ok ⟨Except.ok [0x61]⟩⟩))])).eventsProcessed = 1 ∧
    (advertise_and_find_proxy_device_name okAdapter "rock4" 1 2
        (SelectBranch.charEvent (some (CharacteristicControlEvent.write
          ⟨23, Except.ok ⟨Except.ok [0xff, 0xfe]⟩⟩))
          :: [SelectBranch.charEvent (some (CharacteristicControlEvent.write
            ⟨23, Except.ok ⟨Except.ok [0x61]⟩⟩))])).writesHandled = 1 :=
  C2_invalid_write_ends_run okAdapter "rock4" 1 2 [0xff, 0xfe] 23 ⟨0, some 1⟩
    [SelectBranch.charEvent (some (CharacteristicControlEvent.write
      ⟨23, Except.ok ⟨Except.ok [0x61]⟩⟩))] rfl rfl (by decide) (by decide)

/-- Claim C3: once both registrations have succeeded, every run that returns
(success, decode failure, accept/read error, stream closed, or cancellation)
registers and releases each of the two handles exactly once. -/
theorem C3_handles_released_exactly_once (adapter : Adapter)
    (device_name : String) (svc_uuid char_uuid : Uuid)
    (branches : List SelectBranch) (r : Except BluerError RStr)
    (hadv : adapter.advertise (buildAdvertisement device_name svc_uuid)
      = Except.ok ())
    (happ : adapter.serve_gatt_application
      (buildApplication svc_uuid char_uuid) = Except.ok ())
    (hret : (advertise_and_find_proxy_device_name adapter device_name
      svc_uuid char_uuid branches).result = RunResult.returned r) :
    (advertise_and_find_proxy_device_name adapter device_name svc_uuid
        char_uuid branches).trace.count ResAction.registerAdv = 1 ∧
    (advertise_and_find_proxy_device_name adapter device_name svc_uuid
        char_uuid branches).trace.count ResAction.releaseAdv = 1 ∧
    (advertise_and_find_proxy_device_name adapter device_name svc_uuid
        char_uuid branches).trace.count ResAction.registerApp = 1 ∧
    (advertise_and_find_proxy_device_name adapter device_name svc_uuid
        char_uuid branches).trace.count ResAction.releaseApp = 1 := by
  simp only [advertise_and_find_proxy_device_name, hadv, happ] at hret ⊢
  cases h : (runLoop branches).result with
  | pending => rw [h] at hret; exact absurd hret (by simp)
  | returned r' => exact ⟨rfl, rfl, rfl, rfl⟩

theorem C3_witness :
    (advertise_and_find_proxy_device_name okAdapter "rock4" 1 2
        [SelectBranch.stdinLine]).trace.count ResAction.registerAdv = 1 ∧
    (advertise_and_find_proxy_device_name okAdapter "rock4" 1 2
        [SelectBranch.stdinLine]).trace.count ResAction.releaseAdv = 1 ∧
    (advertise_and_find_proxy_device_name okAdapter "rock4" 1 2
        [SelectBranch.stdinLine]).trace.count ResAction.registerApp = 1 ∧
    (advertise_and_find_proxy_device_name okAdapter "rock4" 1 2
        [SelectBranch.stdinLine]).trace.count ResAction.releaseApp = 1 :=
  C3_handles_released_exactly_once okAdapter "rock4" 1 2
    [SelectBranch.stdinLine] (Except.error failedToCollectError) rfl rfl rfl

end GrillProxy

namespace GrillProxy

/-- Claim C4 counterexample: an operator-cancellation run and a
stream-closed run produce byte-identical outputs (the same generic `Failed`
error, the same trace, the same counters), so the cancellation /
stream-closure distinction is not preserved internally. -/
theorem C4_counterexample :
    advertise_and_find_proxy_device_name okAdapter "grill" 10 11
        [SelectBranch.stdinLine]
      = advertise_and_find_proxy_device_name okAdapter "grill" 10 11
        [SelectBranch.charEvent none] ∧
    (advertise_and_find_proxy_device_name okAdapter "grill" 10 11
        [SelectBranch.stdinLine]).result
      = RunResult.returned (Except.error failedToCollectError) :=
  ⟨rfl, rfl⟩

/-- Claim C4 amended: the decode-failure outcome is distinguishable from the
generic failure (its error value always differs), but cancellation and
stream closure collapse to one and the same generic failure value. -/
theorem C4_amended_decode_distinct_closed_cancel_collapse :
    (∀ r1 r2 : List SelectBranch,
      (runLoop (SelectBranch.stdinLine :: r1)).result
        = (runLoop (SelectBranch.charEvent none :: r2)).result) ∧
    (∀ r1 : List SelectBranch,
      (runLoop (SelectBranch.stdinLine :: r1)).result
        = RunResult.returned (Except.error failedToCollectError)) ∧
    (∀ e : Utf8Error, decodeErrorOf e ≠ failedToCollectError) := by
  refine ⟨fun r1 r2 => rfl, fun r1 => rfl, fun e h => ?_⟩
  have hmsg := congrArg BluerError.message h
  have hlen := congrArg String.length hmsg
  rw [decodeErrorOf, failedToCollectError] at hlen
  simp only [String.length_append] at hlen
  have h1 : ("Written proxy device name is not a UTF8-encoded string: "
    : String).length = 56 := rfl
  have h2 : ("Failed to collect a proxy device name" : String).length
    = 37 := rfl
  omega

theorem C4_amended_witness :
    (runLoop [SelectBranch.stdinLine]).result
      = (runLoop [SelectBranch.charEvent none]).result ∧
    decodeErrorOf ⟨0, some 1⟩ ≠ failedToCollectError :=
  ⟨C4_amended_decode_distinct_closed_cancel_collapse.1 [] [],
    C4_amended_decode_distinct_closed_cancel_collapse.2.2 ⟨0, some 1⟩⟩

/-- Claim C5 counterexample: a run cancelled before any write is
output-identical to a run whose control stream simply closed, so the
returned error does not identify cancellation. -/
theorem C5_counterexample :
    advertise_and_find_proxy_device_name okAdapter "peripheral" 20 21
        [SelectBranch.stdinLine]
      = advertise_and_find_proxy_device_name okAdapter "peripheral" 20 21
        [SelectBranch.charEvent none] :=
  rfl

/-- Claim C5 amended: if cancellation fires before any write arrives, the
run returns the generic failure error, dispatches no control event, invokes
no write handler (whatever events were still pending), and both
registrations are registered and released exactly once before returning. -/
theorem C5_cancellation_before_write (adapter : Adapter)
    (device_name : String) (svc_uuid char_uuid : Uuid)
    (rest : List SelectBranch)
    (hadv : adapter.advertise (buildAdvertisement device_name svc_uuid)
      = Except.ok ())
    (happ : adapter.serve_gatt_application
      (buildApplication svc_uuid char_uuid) = Except.ok ()) :
    advertise_and_find_proxy_device_name adapter device_name svc_uuid
        char_uuid (SelectBranch.stdinLine :: rest)
      = ⟨RunResult.returned (Except.error failedToCollectError),
          [ResAction.registerAdv, ResAction.registerApp,
            ResAction.releaseApp, ResAction.releaseAdv], 0, 0⟩ := by
  simp only [advertise_and_find_proxy_device_name, hadv, happ, runLoop]

theorem C5_witness :
    advertise_and_find_proxy_device_name okAdapter "rock4" 5 6
        (SelectBranch.stdinLine
          :: [SelectBranch.charEvent (some (CharacteristicControlEvent.write
            ⟨23, Except.ok ⟨Except.ok [0x61]⟩⟩))])
      = ⟨RunResult.returned (Except.error failedToCollectError),
          [ResAction.registerAdv, ResAction.registerApp,
            ResAction.releaseApp, ResAction.releaseAdv], 0, 0⟩ :=
  C5_cancellation_before_write okAdapter "rock4" 5 6
    [SelectBranch.charEvent (some (CharacteristicControlEvent.write
      ⟨23, Except.ok ⟨Except.ok [0x61]⟩⟩))] rfl rfl

/-- Claim C6: any number of notify events leaves the loop's result and its
write count exactly those of the remaining script, and after such a prefix a
write request is still handled to completion. -/
theorem C6_notify_never_terminates (mtus : List Nat)
    (rest : List SelectBranch) (req : WriteRequest) :
    (runLoop ((mtus.map fun m => SelectBranch.charEvent
        (some (CharacteristicControlEvent.notify m))) ++ rest)).result
      = (runLoop rest).result ∧
    (runLoop ((mtus.map fun m => SelectBranch.charEvent
        (some (CharacteristicControlEvent.notify m))) ++ rest)).writesHandled
      = (runLoop rest).writesHandled ∧
    (runLoop ((mtus.map fun m => SelectBranch.charEvent
        (some (CharacteristicControlEvent.notify m)))
          ++ [SelectBranch.charEvent
            (some (CharacteristicControlEvent.write req))])).result
      = RunResult.returned (handleWrite req) :=
  ⟨(runLoop_notify_transparent mtus rest).1, (runLoop_notify_transparent mtus rest).2,
    (runLoop_notify_transparent mtus
      [SelectBranch.charEvent
        (some (CharacteristicControlEvent.write req))]).1⟩

/-- Claim C7: if the control stream ends before any write, the run
terminates: it returns the generic failure error (neither hanging as
`pending` nor returning `Ok`), whatever would have followed. -/
theorem C7_stream_end_terminates (adapter : Adapter) (device_name : String)
    (svc_uuid char_uuid : Uuid) (rest : List SelectBranch)
    (hadv : adapter.advertise (buildAdvertisement device_name svc_uuid)
      = Except.ok ())
    (happ : adapter.serve_gatt_application
      (buildApplication svc_uuid char_uuid) = Except.ok ()) :
    (advertise_and_find_proxy_device_name adapter device_name svc_uuid
        char_uuid (SelectBranch.charEvent none :: rest)).result
      = RunResult.returned (Except.error failedToCollectError) := by
  simp only [advertise_and_find_proxy_device_name, hadv, happ, runLoop]

theorem C7_witness :
    (advertise_and_find_proxy_device_name okAdapter "rock4" 30 31
        (SelectBranch.charEvent none :: [SelectBranch.stdinLine])).result
      = RunResult.returned (Except.error failedToCollectError) :=
  C7_stream_end_terminates okAdapter "rock4" 30 31 [SelectBranch.stdinLine]
    rfl rfl

end GrillProxy

namespace GrillProxy

/-- An adapter whose advertisement registration succeeds but whose GATT
application registration fails with `e`; used to instantiate statements at a
concrete input. -/
def serveFailAdapter (e : BluerError) : Adapter :=
  { advertise := fun _ => Except.ok ()
    serve_gatt_application := fun _ => Except.error e }

/-- Claim C8: the advertisement the run registers is exactly
`buildAdvertisement device_name svc_uuid`: it carries the service UUID in
its identifier set, is discoverable, has the supplied local name, and has a
single manufacturer-data entry keyed by the 16-bit testing vendor ID with a
non-empty payload `0x21 0x22 0x23 0x24`; and the run consults its adapter
only at that advertisement (and the built application). -/
theorem C8_advertisement_descriptor (device_name : String)
    (svc_uuid : Uuid) :
    (buildAdvertisement device_name svc_uuid).service_uuids = [svc_uuid] ∧
    svc_uuid ∈ (buildAdvertisement device_name svc_uuid).service_uuids ∧
    (buildAdvertisement device_name svc_uuid).discoverable = some true ∧
    (buildAdvertisement device_name svc_uuid).local_name
      = some device_name ∧
    (buildAdvertisement device_name svc_uuid).manufacturer_data
      = [(TESTING_MANUFACTURER_ID, [0x21, 0x22, 0x23, 0x24])] ∧
    TESTING_MANUFACTURER_ID = 0xffff ∧
    TESTING_MANUFACTURER_ID < 2 ^ 16 ∧
    0 < ([0x21, 0x22, 0x23, 0x24] : List Nat).length ∧
    ∀ (f : Advertisement → Except BluerError Unit)
      (g : Application → Except BluerError Unit) (char_uuid : Uuid)
      (branches : List SelectBranch),
      advertise_and_find_proxy_device_name ⟨f, g⟩ device_name svc_uuid
          char_uuid branches
        = advertise_and_find_proxy_device_name
            ⟨fun _ => f (buildAdvertisement device_name svc_uuid),
              fun _ => g (buildApplication svc_uuid char_uuid)⟩
            device_name svc_uuid char_uuid branches := by
  refine ⟨rfl, ?_, rfl, rfl, rfl, rfl, by decide, by decide,
    fun f g char_uuid branches => rfl⟩
  simp [buildAdvertisement]

/-- Claim C9: when the advertisement registers but the GATT application
registration fails, the run returns that adapter error immediately; the
advertisement handle is registered and released exactly once and the
application handle is never registered nor released. -/
theorem C9_serve_failure_releases_adv_only (adapter : Adapter)
    (device_name : String) (svc_uuid char_uuid : Uuid)
    (branches : List SelectBranch) (e : BluerError)
    (hadv : adapter.advertise (buildAdvertisement device_name svc_uuid)
      = Except.ok ())
    (happ : adapter.serve_gatt_application
      (buildApplication svc_uuid char_uuid) = Except.error e) :
    advertise_and_find_proxy_device_name adapter device_name svc_uuid
        char_uuid branches
      = ⟨RunResult.returned (Except.error e),
          [ResAction.registerAdv, ResAction.releaseAdv], 0, 0⟩ ∧
    (advertise_and_find_proxy_device_name adapter device_name svc_uuid
        char_uuid branches).trace.count ResAction.releaseAdv = 1 ∧
    (advertise_and_find_proxy_device_name adapter device_name svc_uuid
        char_uuid branches).trace.count ResAction.registerApp = 0 ∧
    (advertise_and_find_proxy_device_name adapter device_name svc_uuid
        char_uuid branches).trace.count ResAction.releaseApp = 0 := by
  refine ⟨?_, ?_, ?_, ?_⟩ <;>
    simp only [advertise_and_find_proxy_device_name, hadv, happ] <;> rfl

theorem C9_witness :
    advertise_and_find_proxy_device_name
        (serveFailAdapter ⟨ErrorKind.NotReady, "adapter busy"⟩) "rock4" 1 2
        [SelectBranch.stdinLine]
      = ⟨RunResult.returned
          (Except.error ⟨ErrorKind.NotReady, "adapter busy"⟩),
          [ResAction.registerAdv, ResAction.releaseAdv], 0, 0⟩ ∧
    (advertise_and_find_proxy_device_name
        (serveFailAdapter ⟨ErrorKind.NotReady, "adapter busy"⟩) "rock4" 1 2
        [SelectBranch.stdinLine]).trace.count ResAction.releaseAdv = 1 ∧
    (advertise_and_find_proxy_device_name
        (serveFailAdapter ⟨ErrorKind.NotReady, "adapter busy"⟩) "rock4" 1 2
        [SelectBranch.stdinLine]).trace.count ResAction.registerApp = 0 ∧
    (advertise_and_find_proxy_device_name
        (serveFailAdapter ⟨ErrorKind.NotReady, "adapter busy"⟩) "rock4" 1 2
        [SelectBranch.stdinLine]).trace.count ResAction.releaseApp = 0 :=
  C9_serve_failure_releases_adv_only
    (serveFailAdapter ⟨ErrorKind.NotReady, "adapter busy"⟩) "rock4" 1 2
    [SelectBranch.stdinLine] ⟨ErrorKind.NotReady, "adapter busy"⟩ rfl rfl

/-- Claim C10: a read that delivers zero bytes yields `Ok` with the empty
string: the empty byte sequence passes UTF-8 validation and is returned to
the caller unvalidated. -/
theorem C10_zero_byte_read_returns_empty_string (adapter : Adapter)
    (device_name : String) (svc_uuid char_uuid : Uuid) (mtu : Nat)
    (hadv : adapter.advertise (buildAdvertisement device_name svc_uuid)
      = Except.ok ())
    (happ : adapter.serve_gatt_application
      (buildApplication svc_uuid char_uuid) = Except.ok ()) :
    (advertise_and_find_proxy_device_name adapter device_name svc_uuid
        char_uuid
        [SelectBranch.charEvent (some (CharacteristicControlEvent.write
          ⟨mtu, Except.ok ⟨Except.ok []⟩⟩))]).result
      = RunResult.returned (Except.ok ([] : RStr)) :=
  run_single_valid_write adapter device_name svc_uuid char_uuid
    [] mtu hadv happ rfl (Nat.zero_le mtu)

theorem C10_witness :
    (advertise_and_find_proxy_device_name okAdapter "rock4" 1 2
        [SelectBranch.charEvent (some (CharacteristicControlEvent.write
          ⟨23, Except.ok ⟨Except.ok []⟩⟩))]).result
      = RunResult.returned (Except.ok ([] : RStr)) :=
  C10_zero_byte_read_returns_empty_string okAdapter "rock4" 1 2 23 rfl rfl

end GrillProxy
